import Mathlib

/-!
Verification of the EditaCTF scoring engine.

This file gives a shallow embedding of the scoring logic of the
`AdvancedScoringSystem` class (src/unnamed/part_003) and of the
points-awarding slice of the flag submission route
(src/app/api/flag/route.ts), and proves or refutes the specified
properties of that code.

Modelling conventions:
* JavaScript numbers are modelled as rationals (`ℚ`); integer point
  values as `ℤ`; database counts as `ℕ`.
* `Math.round x` is `⌊x + 1/2⌋` (JS rounds half toward +∞).
* Each database read is modelled by passing the read's result as an
  argument: `none` stands for a missing row / failed read (Supabase
  returns `data: null` in both cases), `some v` for a value.
* The JavaScript `x || d` default (which replaces `null`, `undefined`
  and `0` by `d`) is `jsOrDefault`; `x ?? d` (which replaces only
  nullish values) is `Option.getD`.
* Timestamp strings are modelled by their parsed millisecond value:
  `none` stands for an `NaN` parse (`new Date(s).getTime()` of an
  invalid string), `some t` for a finite value.  A field that may be
  absent (falsy) *and* may fail to parse is `Option (Option ℚ)`:
  the outer `none` is the absent/falsy string, `some none` a present
  but unparseable one.
-/

/-- JS `x || d` on a nullable number: `null`/`undefined` and `0` both
fall back to the default `d`. -/
def jsOrDefault (x : Option ℤ) (d : ℤ) : ℤ :=
  match x with
  | none => d
  | some v => if v = 0 then d else v

/-- JS `Math.round`: round half toward positive infinity. -/
def jsRound (x : ℚ) : ℤ := ⌊x + 1/2⌋

/-- Snapshot of a `challenges` row, as selected by the scoring engine
(`points, difficulty, category, daily, created_at`).  Every column may
be null; `created_at` may additionally be a non-empty string that does
not parse as a date (`some none`). -/
structure Challenge where
  points : Option ℤ
  difficulty : Option String
  category : Option String
  daily : Bool
  created_at : Option (Option ℚ)

/-- The solve-rate → rarity multiplier ladder of
`calculateDynamicPoints` (src/unnamed/part_003 lines 90-105),
evaluated top to bottom, first match wins. -/
def rarityMultiplier (solveRate : ℚ) : ℚ :=
  if solveRate = 0 then 2
  else if solveRate < 1/10 then 9/5
  else if solveRate < 1/4 then 3/2
  else if solveRate < 1/2 then 6/5
  else if solveRate < 4/5 then 1
  else 7/10

/-- `difficultyMultiplier[challenge.difficulty] || 1.0`
(src/unnamed/part_003 lines 108-114): unknown or null difficulty
defaults to 1. -/
def difficultyMultiplier (d : Option String) : ℚ :=
  match d with
  | some s =>
      if s = "easy" then 1
      else if s = "medium" then 13/10
      else if s = "hard" then 8/5
      else if s = "expert" then 2
      else 1
  | none => 1

/-- `categoryMultiplier[challenge.category] || 1.0`
(src/unnamed/part_003 lines 117-125): unknown or null category
defaults to 1. -/
def categoryMultiplier (c : Option String) : ℚ :=
  match c with
  | some s =>
      if s = "crypto" then 6/5
      else if s = "pwn" then 13/10
      else if s = "reverse" then 6/5
      else if s = "web" then 1
      else if s = "forensics" then 11/10
      else if s = "misc" then 1
      else 1
  | none => 1

/-- `AdvancedScoringSystem.calculateDynamicPoints`
(src/unnamed/part_003 lines 61-139), with its three database reads
(challenge row, team count, solve count) passed in as results.
Mirrors the source: missing challenge returns 0; `points || 100`;
missing or zero team count returns the base points; `solveCount || 0`;
rarity, difficulty, category and daily multipliers; result floored at
`Math.round(basePoints * 0.3)`. -/
def calculateDynamicPoints (challenge : Option Challenge)
    (totalTeams : Option ℕ) (solveCount : Option ℕ) : ℤ :=
  match challenge with
  | none => 0
  | some ch =>
    let basePoints := jsOrDefault ch.points 100
    match totalTeams with
    | none => basePoints
    | some tt =>
      if tt = 0 then basePoints
      else
        let solveRate : ℚ := (solveCount.getD 0 : ℚ) / (tt : ℚ)
        let multiplier := rarityMultiplier solveRate
        let diffMult := difficultyMultiplier ch.difficulty
        let catMult := categoryMultiplier ch.category
        let dailyMultiplier : ℚ := if ch.daily then 3/2 else 1
        let finalPoints :=
          jsRound ((basePoints : ℚ) * multiplier * diffMult * catMult * dailyMultiplier)
        max finalPoints (jsRound ((basePoints : ℚ) * (3/10)))

/-- `AdvancedScoringSystem.calculateFirstBloodBonus`
(src/unnamed/part_003 lines 142-173).  `firstSolveExists` is the
result of the earliest-solve query (`true` when some solve of the
challenge already exists); `settingsBonus` is the
`competition_settings.first_blood_bonus` read.  Returns
`(points, isFirstBlood)`; the bonus is `settings?.first_blood_bonus || 50`. -/
def calculateFirstBloodBonus (firstSolveExists : Bool)
    (settingsBonus : Option ℤ) : ℤ × Bool :=
  let isFirstBlood := !firstSolveExists
  if isFirstBlood then (jsOrDefault settingsBonus 50, true)
  else (0, false)

/-- `AdvancedScoringSystem.calculateTeamSizeModifier`
(src/unnamed/part_003 lines 176-182).  The source declares
`maxTeamSize: number = 4`; callers in the repository always use the
default, so `calculateTotalScore` below passes 4 explicitly. -/
def calculateTeamSizeModifier (teamSize maxTeamSize : ℚ) : ℚ :=
  if teamSize ≤ 1 then 1
  else
    let sizeRatio := teamSize / maxTeamSize
    max (7/10) (1 - (sizeRatio - 1) * (3/10))

/-- The difficulty → `(fast, medium)` hour thresholds of
`calculateSpeedBonus` (src/unnamed/part_003 lines 192-199); an unknown
difficulty key falls back to the `medium` row. -/
def speedThresholds (d : String) : ℚ × ℚ :=
  if d = "easy" then (1, 6)
  else if d = "medium" then (2, 12)
  else if d = "hard" then (4, 24)
  else if d = "expert" then (8, 48)
  else (2, 12)

/-- `AdvancedScoringSystem.calculateSpeedBonus`
(src/unnamed/part_003 lines 185-211), on the parsed millisecond
values of its two timestamp strings.  If either timestamp is `NaN`
(`none`), every comparison against the thresholds is false and the
result is 0, exactly as in the source. -/
def calculateSpeedBonus (releaseMs solveMs : Option ℚ)
    (challengeDifficulty : String) : ℤ :=
  match releaseMs, solveMs with
  | some r, some s =>
    let timeDiffHours := (s - r) / 3600000
    let thresholds := speedThresholds challengeDifficulty
    if timeDiffHours ≤ thresholds.1 then 25
    else if timeDiffHours ≤ thresholds.2 then 10
    else 0
  | _, _ => 0

/-- The record returned by `calculateTotalScore`
(src/unnamed/part_003 lines 219-228); the audit `breakdown` echo of
the inputs is omitted, the scored fields are all here. -/
structure ScoreBreakdown where
  basePoints : ℤ
  dynamicPoints : ℤ
  firstBloodBonus : ℤ
  speedBonus : ℤ
  teamSizeModifier : ℚ
  totalPoints : ℤ
  isFirstBlood : Bool

/-- `AdvancedScoringSystem.calculateTotalScore`
(src/unnamed/part_003 lines 214-268), with its database reads passed
in: `challenge` is the challenge-row read (shared with the re-read
inside `calculateDynamicPoints`, i.e. one consistent snapshot),
`totalTeams`/`solveCount` feed `calculateDynamicPoints`,
`firstSolveExists`/`settingsBonus` feed `calculateFirstBloodBonus`,
and `solveTimeMs` is the parsed `solveTime` argument.  The release
time is `challenge?.created_at || solveTime` and the difficulty is
`challenge?.difficulty || 'medium'`, as in the source. -/
def calculateTotalScore (challenge : Option Challenge)
    (totalTeams : Option ℕ) (solveCount : Option ℕ)
    (firstSolveExists : Bool) (settingsBonus : Option ℤ)
    (teamSize : ℚ) (solveTimeMs : Option ℚ) : ScoreBreakdown :=
  let basePoints :=
    match challenge with
    | some ch => jsOrDefault ch.points 100
    | none => 100
  let dynamicPoints := calculateDynamicPoints challenge totalTeams solveCount
  let firstBlood := calculateFirstBloodBonus firstSolveExists settingsBonus
  let releaseMs : Option ℚ :=
    match challenge with
    | some ch =>
      match ch.created_at with
      | some parsed => parsed
      | none => solveTimeMs
    | none => solveTimeMs
  let difficulty :=
    match challenge with
    | some ch =>
      match ch.difficulty with
      | some d => if d = "" then "medium" else d
      | none => "medium"
    | none => "medium"
  let speedBonus := calculateSpeedBonus releaseMs solveTimeMs difficulty
  let teamSizeModifier := calculateTeamSizeModifier teamSize 4
  let adjustedPoints := jsRound ((dynamicPoints : ℚ) * teamSizeModifier)
  let totalPoints := adjustedPoints + firstBlood.1 + speedBonus
  { basePoints := basePoints
    dynamicPoints := dynamicPoints
    firstBloodBonus := firstBlood.1
    speedBonus := speedBonus
    teamSizeModifier := teamSizeModifier
    totalPoints := totalPoints
    isFirstBlood := firstBlood.2 }

/-- The hard-coded breakdown returned by the `catch` arm of
`calculateTotalScore` (src/unnamed/part_003 lines 269-281). -/
def fallbackScore : ScoreBreakdown :=
  { basePoints := 100
    dynamicPoints := 100
    firstBloodBonus := 0
    speedBonus := 0
    teamSizeModifier := 1
    totalPoints := 100
    isFirstBlood := false }

/-- A row of the `solves` table as written by the flag route:
`{ user_id, team_name, challenge_id, points }`. -/
structure SolveRow where
  user_id : String
  team_name : String
  challenge_id : String
  points : ℤ
deriving DecidableEq

/-- The points-awarding slice of the flag route `POST`
(src/app/api/flag/route.ts lines 126-169), run against the current
`solves` table for an already-verified correct flag:
`points = Number(ch?.points ?? 0)`; `awarded = 0` when this team
already has a solve of the challenge, else `points`; the insert
ignores duplicates on the `(user_id, challenge_id)` conflict key.
Returns `(awarded, solves table after the insert)`. -/
def flagRouteAward (solves : List SolveRow) (chPoints : Option ℤ)
    (userId teamName challengeId : String) : ℤ × List SolveRow :=
  let points := chPoints.getD 0
  let existingTeamSolve :=
    solves.any fun s => s.team_name == teamName && s.challenge_id == challengeId
  let awarded := if existingTeamSolve then 0 else points
  let duplicate :=
    solves.any fun s => s.user_id == userId && s.challenge_id == challengeId
  let newSolves :=
    if duplicate then solves
    else solves ++ [⟨userId, teamName, challengeId, points⟩]
  (awarded, newSolves)

/-- A persisted solve together with the first-blood flag its
submission computed; used to analyse schedules of submissions to one
challenge. -/
structure MarkedSolve where
  team : String
  challenge_id : String
  isFirstBlood : Bool
deriving DecidableEq

/-- An atomic step of one submission, as performed by the code: the
advisory earliest-solve read inside `calculateFirstBloodBonus`, and
the later insert of the solve record. -/
inductive SubmissionEvent where
  | read (team : String)
  | write (team : String)

/-- State of the solves store while a schedule of submissions to one
challenge runs: the persisted rows, and the candidate first-blood
flags computed by reads that have already happened. -/
structure RaceState where
  repo : List MarkedSolve
  candidates : List (String × Bool)

/-- One event of a schedule.  A `read t` runs
`calculateFirstBloodBonus` against the current store, exactly as
src/unnamed/part_003 lines 142-173 do (the earliest-solve query
succeeds iff some solve of the challenge exists), and remembers the
candidate flag for team `t`.  A `write t` persists team `t`'s solve
carrying its candidate flag; the code performs no re-validation of
first blood at write time. -/
def fbStep (challengeId : String) (settingsBonus : Option ℤ)
    (st : RaceState) : SubmissionEvent → RaceState
  | .read t =>
    let firstSolveExists := st.repo.any fun s => s.challenge_id == challengeId
    let fb := calculateFirstBloodBonus firstSolveExists settingsBonus
    ⟨st.repo, (t, fb.2) :: st.candidates⟩
  | .write t =>
    match st.candidates.find? (fun c => c.1 == t) with
    | some c => ⟨st.repo ++ [⟨t, challengeId, c.2⟩], st.candidates⟩
    | none => st

/-- Run a schedule of submission events against an initially empty
solves store. -/
def runSchedule (challengeId : String) (settingsBonus : Option ℤ)
    (events : List SubmissionEvent) : RaceState :=
  events.foldl (fbStep challengeId settingsBonus) ⟨[], []⟩

/-- The serialized schedule: each submission's read is immediately
followed by its write, before the next submission starts. -/
def serializedSchedule (teams : List String) : List SubmissionEvent :=
  teams.flatMap fun t => [.read t, .write t]

/-- Number of persisted solves marked as first blood. -/
def firstBloodCount (repo : List MarkedSolve) : ℕ :=
  repo.countP fun s => s.isFirstBlood

/-! ## Helper lemmas -/

theorem jsRound_mono {a b : ℚ} (h : a ≤ b) : jsRound a ≤ jsRound b :=
  Int.floor_le_floor (by linarith)

theorem jsRound_nonneg {a : ℚ} (h : 0 ≤ a) : 0 ≤ jsRound a :=
  Int.floor_nonneg.2 (by linarith)

theorem jsRound_le_self {p : ℤ} {c : ℚ} (hc1 : c ≤ 1)
    (hp : 0 ≤ p) : jsRound ((p : ℚ) * c) ≤ p := by
  have hp' : (0 : ℚ) ≤ (p : ℚ) := by exact_mod_cast hp
  unfold jsRound
  rw [Int.floor_le_iff]
  nlinarith

theorem teamSizeModifier_ge_seven_tenths (ts m : ℚ) :
    7/10 ≤ calculateTeamSizeModifier ts m := by
  unfold calculateTeamSizeModifier
  split_ifs with h
  · norm_num
  · exact le_max_left _ _

theorem rarityMultiplier_ge_seven_tenths (r : ℚ) :
    7/10 ≤ rarityMultiplier r := by
  unfold rarityMultiplier
  split_ifs <;> norm_num

theorem rarityMultiplier_antitone {a b : ℚ} (ha : 0 ≤ a) (hab : a ≤ b) :
    rarityMultiplier b ≤ rarityMultiplier a := by
  rcases eq_or_lt_of_le ha with ha0 | ha0
  · have : rarityMultiplier a = 2 := by
      unfold rarityMultiplier
      rw [if_pos ha0.symm]
    rw [this]
    unfold rarityMultiplier
    split_ifs <;> norm_num
  · have hb0 : 0 < b := lt_of_lt_of_le ha0 hab
    unfold rarityMultiplier
    split_ifs <;> linarith

theorem difficultyMultiplier_ge_one (d : Option String) :
    1 ≤ difficultyMultiplier d := by
  rcases d with _ | s
  · norm_num [difficultyMultiplier]
  · simp only [difficultyMultiplier]
    split_ifs <;> norm_num

theorem categoryMultiplier_ge_one (c : Option String) :
    1 ≤ categoryMultiplier c := by
  rcases c with _ | s
  · norm_num [categoryMultiplier]
  · simp only [categoryMultiplier]
    split_ifs <;> norm_num

theorem calculateSpeedBonus_nonneg (r s : Option ℚ) (d : String) :
    0 ≤ calculateSpeedBonus r s d := by
  rcases r with _ | r <;> rcases s with _ | s <;>
    simp only [calculateSpeedBonus] <;> try norm_num
  split_ifs <;> norm_num

theorem calculateFirstBloodBonus_nonneg {b : Option ℤ}
    (hb : ∀ v, b = some v → 0 ≤ v) (e : Bool) :
    0 ≤ (calculateFirstBloodBonus e b).1 := by
  cases e
  · rcases b with _ | v
    · simp [calculateFirstBloodBonus, jsOrDefault]
    · have hv := hb v rfl
      simp [calculateFirstBloodBonus, jsOrDefault]
      split_ifs <;> omega
  · simp [calculateFirstBloodBonus]

theorem calculateDynamicPoints_eq {ch : Challenge} {p : ℤ}
    (hp : ch.points = some p) (hp0 : p ≠ 0) {tt : ℕ} (htt : tt ≠ 0)
    (sc : Option ℕ) :
    calculateDynamicPoints (some ch) (some tt) sc =
      max (jsRound ((p : ℚ) * rarityMultiplier ((sc.getD 0 : ℚ) / (tt : ℚ)) *
          difficultyMultiplier ch.difficulty * categoryMultiplier ch.category *
          (if ch.daily then 3/2 else 1)))
        (jsRound ((p : ℚ) * (3/10))) := by
  simp [calculateDynamicPoints, hp, htt, jsOrDefault, hp0]

theorem dailyFactor_ge_one (b : Bool) :
    1 ≤ ((if b then 3/2 else 1) : ℚ) := by
  split_ifs <;> norm_num

theorem full_product_ge {ch : Challenge} {p : ℤ} (hp' : (0 : ℚ) < (p : ℚ))
    (r : ℚ) :
    (p : ℚ) * (7/10) ≤
      (p : ℚ) * rarityMultiplier r * difficultyMultiplier ch.difficulty *
        categoryMultiplier ch.category * (if ch.daily then 3/2 else 1) := by
  have hm := rarityMultiplier_ge_seven_tenths r
  have hd := difficultyMultiplier_ge_one ch.difficulty
  have hc := categoryMultiplier_ge_one ch.category
  have hdl := dailyFactor_ge_one ch.daily
  have h1 : (p : ℚ) * (7/10) ≤ (p : ℚ) * rarityMultiplier r :=
    mul_le_mul_of_nonneg_left hm hp'.le
  have a0 : (0 : ℚ) ≤ (p : ℚ) * rarityMultiplier r :=
    mul_nonneg hp'.le (le_trans (by norm_num) hm)
  have h2 := le_mul_of_one_le_right a0 hd
  have a1 : (0 : ℚ) ≤ (p : ℚ) * rarityMultiplier r *
      difficultyMultiplier ch.difficulty := le_trans a0 h2
  have h3 := le_mul_of_one_le_right a1 hc
  have a2 : (0 : ℚ) ≤ (p : ℚ) * rarityMultiplier r *
      difficultyMultiplier ch.difficulty * categoryMultiplier ch.category :=
    le_trans a1 h3
  have h4 := le_mul_of_one_le_right a2 hdl
  linarith

theorem dynamicPoints_lower {ch : Challenge} {p : ℤ}
    (hp : ch.points = some p) (hp0 : 0 < p) (tt sc : Option ℕ) :
    jsRound ((p : ℚ) * (7/10)) ≤ calculateDynamicPoints (some ch) tt sc ∧
    jsRound ((p : ℚ) * (3/10)) ≤ calculateDynamicPoints (some ch) tt sc := by
  have hp' : (0 : ℚ) < (p : ℚ) := by exact_mod_cast hp0
  have hself7 : jsRound ((p : ℚ) * (7/10)) ≤ p :=
    jsRound_le_self (by norm_num) hp0.le
  have hself3 : jsRound ((p : ℚ) * (3/10)) ≤ p :=
    jsRound_le_self (by norm_num) hp0.le
  rcases tt with _ | tt
  · have he : calculateDynamicPoints (some ch) none sc = p := by
      simp [calculateDynamicPoints, hp, jsOrDefault, hp0.ne']
    rw [he]
    exact ⟨hself7, hself3⟩
  · rcases Nat.eq_zero_or_pos tt with h0 | hpos
    · subst h0
      have he : calculateDynamicPoints (some ch) (some 0) sc = p := by
        simp [calculateDynamicPoints, hp, jsOrDefault, hp0.ne']
      rw [he]
      exact ⟨hself7, hself3⟩
    · rw [calculateDynamicPoints_eq hp hp0.ne' hpos.ne' sc]
      refine ⟨le_trans ?_ (le_max_left _ _), le_max_right _ _⟩
      exact jsRound_mono (full_product_ge hp' _)

theorem jsRound_seven_tenths_chain {p : ℤ} (hp : 0 < p) :
    jsRound ((p : ℚ) * (3/10)) ≤
      jsRound ((jsRound ((p : ℚ) * (7/10)) : ℚ) * (7/10)) := by
  have hp1 : 1 ≤ p := hp
  rcases eq_or_lt_of_le hp1 with heq | hgt
  · rw [← heq]
    norm_num [jsRound, Int.floor_eq_iff]
  · have hp2 : (2 : ℚ) ≤ (p : ℚ) := by exact_mod_cast hgt
    have hfl : (p : ℚ) * (7/10) - 1/2 < (jsRound ((p : ℚ) * (7/10)) : ℚ) := by
      have h := Int.sub_one_lt_floor ((p : ℚ) * (7/10) + 1/2)
      unfold jsRound
      linarith
    apply jsRound_mono
    linarith

/-! ## Claim theorems -/

/-- C2 counterexample: `calculateTeamSizeModifier 2 4` evaluates to
`23/20 = 1.15`, which is outside the claimed range `(0, 1]`, and it
exceeds `calculateTeamSizeModifier 1 4 = 1`, so the function is not
monotonically non-increasing from team size 1 to team size 2 either. -/
theorem C2_counterexample :
    calculateTeamSizeModifier 2 4 = 23/20 ∧
    ¬ calculateTeamSizeModifier 2 4 ≤ 1 ∧
    calculateTeamSizeModifier 1 4 < calculateTeamSizeModifier 2 4 := by
  norm_num [calculateTeamSizeModifier]

/-- C2 (amended): for `maxTeamSize ≥ 1`, `calculateTeamSizeModifier`
equals 1 when `teamSize ≤ 1`, always lies in `[0.7, 1.3)` (it can
exceed 1 for `1 < teamSize < maxTeamSize`), and is monotonically
non-increasing on `teamSize > 1`; monotonicity across the boundary
`teamSize = 1 → 2` fails. -/
theorem C2_teamSizeModifier_amended (ts ts' m : ℚ) (hm : 1 ≤ m) :
    (ts ≤ 1 → calculateTeamSizeModifier ts m = 1) ∧
    7/10 ≤ calculateTeamSizeModifier ts m ∧
    calculateTeamSizeModifier ts m < 13/10 ∧
    (1 < ts → ts ≤ ts' →
      calculateTeamSizeModifier ts' m ≤ calculateTeamSizeModifier ts m) := by
  have hm0 : 0 < m := lt_of_lt_of_le one_pos hm
  refine ⟨?_, teamSizeModifier_ge_seven_tenths ts m, ?_, ?_⟩
  · intro h
    unfold calculateTeamSizeModifier
    rw [if_pos h]
  · unfold calculateTeamSizeModifier
    split_ifs with h
    · norm_num
    · push_neg at h
      have hdiv : 0 < ts / m := div_pos (lt_trans one_pos h) hm0
      rw [max_lt_iff]
      constructor
      · norm_num
      · nlinarith
  · intro hts hle
    have hts' : 1 < ts' := lt_of_lt_of_le hts hle
    unfold calculateTeamSizeModifier
    rw [if_neg (not_le.2 hts), if_neg (not_le.2 hts')]
    have hdiv : ts / m ≤ ts' / m := by
      apply div_le_div_of_nonneg_right hle
      exact hm0.le
    apply max_le_max le_rfl
    linarith

/-- C2 witness: the amended properties at `teamSize = 2`,
`teamSize' = 3`, `maxTeamSize = 4`. -/
theorem C2_teamSizeModifier_amended_witness :
    calculateTeamSizeModifier 3 4 ≤ calculateTeamSizeModifier 2 4 ∧
    7/10 ≤ calculateTeamSizeModifier 2 4 ∧
    calculateTeamSizeModifier 2 4 < 13/10 := by
  have h := C2_teamSizeModifier_amended 2 3 4 (by norm_num)
  exact ⟨h.2.2.2 (by norm_num) (by norm_num), h.2.1, h.2.2.1⟩

/-- C3 counterexample: with a release time 1 hour after the solve time
(elapsed time −1 hour), `calculateSpeedBonus` returns 25, the
fast-solve bonus, not the claimed 0: a negative elapsed time satisfies
`timeDiffHours <= thresholds.fast`. -/
theorem C3_counterexample :
    calculateSpeedBonus (some 3600000) (some 0) "medium" = 25 := by
  simp [calculateSpeedBonus, speedThresholds]
  norm_num

/-- C3 (amended): for every pair of parseable timestamps with negative
elapsed time and every difficulty, `calculateSpeedBonus` returns the
full fast-solve bonus of 25 — not 0 — and raises no error; only an
unparseable timestamp yields 0. -/
theorem C3_speedBonus_negative_elapsed_amended (r s : ℚ) (d : String)
    (hneg : s - r < 0) :
    calculateSpeedBonus (some r) (some s) d = 25 := by
  have hdiff : (s - r) / 3600000 < 0 := div_neg_of_neg_of_pos hneg (by norm_num)
  have hfast : 1 ≤ (speedThresholds d).1 := by
    unfold speedThresholds
    split_ifs <;> norm_num
  simp only [calculateSpeedBonus]
  rw [if_pos (by linarith)]

/-- C3 witness: a solve recorded one hour before the challenge's
release time receives the 25-point fast bonus. -/
theorem C3_speedBonus_negative_elapsed_amended_witness :
    calculateSpeedBonus (some 3600000) (some 0) "hard" = 25 :=
  C3_speedBonus_negative_elapsed_amended 3600000 0 "hard" (by norm_num)

/-- C7 counterexample: with no existing solve and a configured
first-blood bonus of 0, `calculateFirstBloodBonus` returns a bonus of
50, not the claimed 0: the source computes
`settings?.first_blood_bonus || 50`, and `0 || 50` is 50. -/
theorem C7_counterexample :
    calculateFirstBloodBonus false (some 0) = (50, true) := by
  decide

/-- C7 (amended): `calculateFirstBloodBonus` returns
`isFirstBlood = true` if and only if no accepted solve of the
challenge exists, with bonus equal to the configured amount when that
amount is a nonzero value and 50 when the configuration is missing
*or configured as 0*; when a solve already exists it returns
`(0, false)`. -/
theorem C7_firstBlood_amended (b : Option ℤ) (v : ℤ) (hv : v ≠ 0) :
    calculateFirstBloodBonus true b = (0, false) ∧
    calculateFirstBloodBonus false none = (50, true) ∧
    calculateFirstBloodBonus false (some 0) = (50, true) ∧
    calculateFirstBloodBonus false (some v) = (v, true) := by
  refine ⟨rfl, rfl, by decide, ?_⟩
  unfold calculateFirstBloodBonus jsOrDefault
  simp [hv]

/-- C7 witness: the amended behaviour at a configured bonus of 75. -/
theorem C7_firstBlood_amended_witness :
    calculateFirstBloodBonus true (some 75) = (0, false) ∧
    calculateFirstBloodBonus false (some 75) = (75, true) := by
  have h := C7_firstBlood_amended (some 75) 75 (by norm_num)
  exact ⟨h.1, h.2.2.2⟩

/-- C5: for a present challenge with positive base points and a
positive eligible team count, `calculateDynamicPoints` returns
`round(basePoints * rarityMultiplier * difficultyMultiplier *
categoryMultiplier * dailyMultiplier)` floored at
`round(basePoints * 0.3)`, where the rarity multiplier is the first
matching row of the ordered threshold table on
`solveRate = solveCount / eligibleTeamCount`, unknown difficulty and
category map to 1.0 and the daily multiplier is 1.5/1.0; as a
consequence the result is monotonically non-increasing in
`solveCount` with all other inputs fixed. -/
theorem C5_dynamicPoints_formula_and_monotone (ch : Challenge) (p : ℤ)
    (tt sc sc' : ℕ) (hp : ch.points = some p) (hp0 : 0 < p)
    (htt : 0 < tt) (hsc : sc ≤ sc') :
    (calculateDynamicPoints (some ch) (some tt) (some sc) =
      max (jsRound ((p : ℚ) * rarityMultiplier ((sc : ℚ) / (tt : ℚ)) *
          difficultyMultiplier ch.difficulty * categoryMultiplier ch.category *
          (if ch.daily then 3/2 else 1)))
        (jsRound ((p : ℚ) * (3/10)))) ∧
    difficultyMultiplier (some "nightmare") = 1 ∧
    categoryMultiplier (some "osint") = 1 ∧
    calculateDynamicPoints (some ch) (some tt) (some sc') ≤
      calculateDynamicPoints (some ch) (some tt) (some sc) := by
  have hp' : (0 : ℚ) < (p : ℚ) := by exact_mod_cast hp0
  have htt' : (0 : ℚ) < (tt : ℚ) := by exact_mod_cast htt
  have hd := difficultyMultiplier_ge_one ch.difficulty
  have hc := categoryMultiplier_ge_one ch.category
  have hdl := dailyFactor_ge_one ch.daily
  refine ⟨?_, by simp [difficultyMultiplier], by simp [categoryMultiplier], ?_⟩
  · have h := calculateDynamicPoints_eq hp hp0.ne' htt.ne' (some sc)
    simpa using h
  · rw [calculateDynamicPoints_eq hp hp0.ne' htt.ne' (some sc),
      calculateDynamicPoints_eq hp hp0.ne' htt.ne' (some sc')]
    simp only [Option.getD_some]
    apply max_le_max _ le_rfl
    apply jsRound_mono
    have hrate : (sc : ℚ) / (tt : ℚ) ≤ (sc' : ℚ) / (tt : ℚ) := by
      apply div_le_div_of_nonneg_right _ htt'.le
      exact_mod_cast hsc
    have hmono := rarityMultiplier_antitone (by positivity) hrate
    have e1 : (p : ℚ) * rarityMultiplier ((sc' : ℚ) / (tt : ℚ)) *
        difficultyMultiplier ch.difficulty * categoryMultiplier ch.category *
        (if ch.daily then 3/2 else 1) =
        rarityMultiplier ((sc' : ℚ) / (tt : ℚ)) *
        ((p : ℚ) * difficultyMultiplier ch.difficulty *
          categoryMultiplier ch.category * (if ch.daily then 3/2 else 1)) := by
      ring
    have e2 : (p : ℚ) * rarityMultiplier ((sc : ℚ) / (tt : ℚ)) *
        difficultyMultiplier ch.difficulty * categoryMultiplier ch.category *
        (if ch.daily then 3/2 else 1) =
        rarityMultiplier ((sc : ℚ) / (tt : ℚ)) *
        ((p : ℚ) * difficultyMultiplier ch.difficulty *
          categoryMultiplier ch.category * (if ch.daily then 3/2 else 1)) := by
      ring
    rw [e1, e2]
    apply mul_le_mul_of_nonneg_right hmono
    have n1 : (0 : ℚ) ≤ (p : ℚ) * difficultyMultiplier ch.difficulty :=
      mul_nonneg hp'.le (le_trans zero_le_one hd)
    have n2 : (0 : ℚ) ≤ (p : ℚ) * difficultyMultiplier ch.difficulty *
        categoryMultiplier ch.category :=
      mul_nonneg n1 (le_trans zero_le_one hc)
    exact mul_nonneg n2 (le_trans zero_le_one hdl)

/-- C5 witness: the formula and monotonicity at a concrete 100-point
hard crypto challenge with 10 teams and solve counts 1 ≤ 2. -/
theorem C5_dynamicPoints_formula_and_monotone_witness :
    calculateDynamicPoints
        (some ⟨some 100, some "hard", some "crypto", false, none⟩)
        (some 10) (some 2) ≤
      calculateDynamicPoints
        (some ⟨some 100, some "hard", some "crypto", false, none⟩)
        (some 10) (some 1) :=
  (C5_dynamicPoints_formula_and_monotone
    ⟨some 100, some "hard", some "crypto", false, none⟩ 100 10 1 2
    rfl (by norm_num) (by norm_num) (by norm_num)).2.2.2

/-- Decomposition of `calculateTotalScore`'s total into its
components; the release time and difficulty actually passed to the
speed bonus are abstracted existentially. -/
theorem totalScore_decompose (challenge : Option Challenge)
    (tt sc : Option ℕ) (fse : Bool) (sb : Option ℤ) (ts : ℚ)
    (stm : Option ℚ) :
    ∃ rel diff,
      (calculateTotalScore challenge tt sc fse sb ts stm).totalPoints =
        jsRound ((calculateDynamicPoints challenge tt sc : ℚ) *
          calculateTeamSizeModifier ts 4) +
        (calculateFirstBloodBonus fse sb).1 +
        calculateSpeedBonus rel stm diff :=
  ⟨_, _, rfl⟩

/-- C1 counterexample: when the challenge row cannot be read
(`challenge = none`) and the challenge already has a solve,
`calculateTotalScore` records `basePoints = 100` (the fallback) but
returns `totalPoints = 25` (dynamic points 0 for the missing
challenge, no first blood, speed bonus 25 because the release time
falls back to the solve time), and `25 < 30 = round(100 * 0.3)`:
the 30%-of-base floor does not survive a failed challenge read. -/
theorem C1_counterexample :
    (calculateTotalScore none none none true none 1 (some 0)).basePoints = 100 ∧
    (calculateTotalScore none none none true none 1 (some 0)).totalPoints = 25 ∧
    ¬ jsRound ((100 : ℚ) * (3/10)) ≤ 25 := by
  refine ⟨rfl, ?_, ?_⟩
  · simp [calculateTotalScore, calculateDynamicPoints, calculateFirstBloodBonus,
      calculateSpeedBonus, speedThresholds, calculateTeamSizeModifier,
      jsOrDefault, jsRound]
    norm_num
  · norm_num [jsRound, Int.floor_eq_iff]

/-- C1 (amended): whenever the challenge snapshot is actually read
(present, with stored point value `p > 0`) and any configured
first-blood bonus is non-negative, the resulting `totalPoints` is at
least `round(p * 0.3)` — for every team count, solve count,
first-blood state, team size and solve time, including missing reads
of the team count, solve count and configuration.  The bound does
not survive a failed read of the challenge row itself (see the
counterexample). -/
theorem C1_min_score_amended (ch : Challenge) (p : ℤ)
    (hp : ch.points = some p) (hp0 : 0 < p)
    (tt sc : Option ℕ) (fse : Bool) (sb : Option ℤ)
    (hsb : ∀ v, sb = some v → 0 ≤ v) (teamSize : ℚ) (stm : Option ℚ) :
    jsRound ((p : ℚ) * (3/10)) ≤
      (calculateTotalScore (some ch) tt sc fse sb teamSize stm).totalPoints := by
  have hp' : (0 : ℚ) < (p : ℚ) := by exact_mod_cast hp0
  obtain ⟨rel, diff, heq⟩ := totalScore_decompose (some ch) tt sc fse sb teamSize stm
  rw [heq]
  have hdyn := dynamicPoints_lower hp hp0 tt sc
  have hr7 : jsRound ((p : ℚ) * (7/10)) ≤ calculateDynamicPoints (some ch) tt sc :=
    hdyn.1
  have hdyn0 : (0 : ℤ) ≤ calculateDynamicPoints (some ch) tt sc :=
    le_trans (jsRound_nonneg (mul_nonneg hp'.le (by norm_num))) hr7
  have hmod := teamSizeModifier_ge_seven_tenths teamSize 4
  have hfb := calculateFirstBloodBonus_nonneg hsb fse
  have hsp := calculateSpeedBonus_nonneg rel stm diff
  have hA := jsRound_seven_tenths_chain hp0
  have hB : jsRound ((jsRound ((p : ℚ) * (7/10)) : ℚ) * (7/10)) ≤
      jsRound ((calculateDynamicPoints (some ch) tt sc : ℚ) * (7/10)) := by
    apply jsRound_mono
    apply mul_le_mul_of_nonneg_right _ (by norm_num)
    exact_mod_cast hr7
  have hC : jsRound ((calculateDynamicPoints (some ch) tt sc : ℚ) * (7/10)) ≤
      jsRound ((calculateDynamicPoints (some ch) tt sc : ℚ) *
        calculateTeamSizeModifier teamSize 4) := by
    apply jsRound_mono
    apply mul_le_mul_of_nonneg_left hmod
    exact_mod_cast hdyn0
  linarith

/-- C1 witness: for a 100-point easy web challenge read successfully,
the total of a first solo fast solve is at least `round(100 * 0.3)`. -/
theorem C1_min_score_amended_witness :
    jsRound ((100 : ℚ) * (3/10)) ≤
      (calculateTotalScore
        (some ⟨some 100, some "easy", some "web", false, some (some 0)⟩)
        (some 10) (some 0) false none 1 (some 0)).totalPoints :=
  C1_min_score_amended
    ⟨some 100, some "easy", some "web", false, some (some 0)⟩ 100
    rfl (by norm_num) (some 10) (some 0) false none
    (fun v h => by cases h) 1 (some 0)

/-- C4: for every input, the `ScoreBreakdown` returned by
`calculateTotalScore` satisfies
`totalPoints = round(dynamicPoints * teamSizeModifier) + firstBloodBonus + speedBonus`
over its own recorded component fields, and the hard-coded fallback
breakdown of the `catch` arm satisfies the same equation: the
breakdown is self-consistent and replayable. -/
theorem C4_breakdown_replayable (challenge : Option Challenge)
    (totalTeams solveCount : Option ℕ) (firstSolveExists : Bool)
    (settingsBonus : Option ℤ) (teamSize : ℚ) (solveTimeMs : Option ℚ) :
    ((calculateTotalScore challenge totalTeams solveCount firstSolveExists
        settingsBonus teamSize solveTimeMs).totalPoints =
      jsRound (((calculateTotalScore challenge totalTeams solveCount firstSolveExists
        settingsBonus teamSize solveTimeMs).dynamicPoints : ℚ) *
        (calculateTotalScore challenge totalTeams solveCount firstSolveExists
          settingsBonus teamSize solveTimeMs).teamSizeModifier) +
      (calculateTotalScore challenge totalTeams solveCount firstSolveExists
        settingsBonus teamSize solveTimeMs).firstBloodBonus +
      (calculateTotalScore challenge totalTeams solveCount firstSolveExists
        settingsBonus teamSize solveTimeMs).speedBonus) ∧
    fallbackScore.totalPoints =
      jsRound ((fallbackScore.dynamicPoints : ℚ) * fallbackScore.teamSizeModifier) +
      fallbackScore.firstBloodBonus + fallbackScore.speedBonus := by
  constructor
  · rfl
  · norm_num [fallbackScore, jsRound]

/-- C6 counterexample: a missing challenge snapshot makes
`calculateDynamicPoints` return 0, not the claimed neutral default
(`basePoints` itself, which defaults to 100 when absent); with the
same team/solve statistics a present challenge of 100 base points is
scored 200, so 0 is not any neutral-default value. -/
theorem C6_counterexample :
    calculateDynamicPoints none (some 5) (some 0) = 0 ∧
    calculateDynamicPoints (some ⟨some 100, none, none, false, none⟩)
      (some 5) (some 0) = 200 := by
  constructor
  · rfl
  · simp [calculateDynamicPoints, jsOrDefault, rarityMultiplier,
      difficultyMultiplier, categoryMultiplier, jsRound]
    norm_num [Int.floor_eq_iff]

/-- C6 (amended): `calculateDynamicPoints` returns
`challenge.points || 100` unchanged whenever the team-count read is
missing or zero (the dynamic-scoring toggle of the configuration is
never consulted — the function reads no configuration at all); a
missing challenge snapshot returns 0 rather than a neutral default;
missing or zero `points` default to 100; unknown or missing
difficulty and category map to multiplier 1.0; a missing solve count
defaults to 0.  No error is raised on any input. -/
theorem C6_dynamicPoints_defaults_amended (ch : Challenge)
    (tt sc sc2 : Option ℕ) :
    calculateDynamicPoints (some ch) none sc = jsOrDefault ch.points 100 ∧
    calculateDynamicPoints (some ch) (some 0) sc = jsOrDefault ch.points 100 ∧
    calculateDynamicPoints none tt sc2 = 0 ∧
    difficultyMultiplier none = 1 ∧
    categoryMultiplier none = 1 ∧
    difficultyMultiplier (some "impossible") = 1 ∧
    categoryMultiplier (some "jeopardy") = 1 := by
  refine ⟨rfl, by simp [calculateDynamicPoints], rfl, rfl, rfl, ?_, ?_⟩ <;>
    simp [difficultyMultiplier, categoryMultiplier]

/-- C8 counterexample: for a first correct solve of a 100-point easy
web challenge by a solo team (10 eligible teams, no prior solves,
solved at release time), the flag route awards the raw stored value
100, while `calculateTotalScore` on the same state produces
`totalPoints = 275` (dynamic 200 for an unsolved challenge + 50 first
blood + 25 speed): the caller does not invoke the scoring engine and
awards a different value. -/
theorem C8_counterexample :
    (flagRouteAward [] (some 100) "u1" "team1" "chal1").1 = 100 ∧
    (calculateTotalScore
        (some ⟨some 100, some "easy", some "web", false, some (some 0)⟩)
        (some 10) (some 0) false none 1 (some 0)).totalPoints = 275 ∧
    (100 : ℤ) ≠ 275 := by
  refine ⟨rfl, ?_, by norm_num⟩
  simp [calculateTotalScore, calculateDynamicPoints, calculateFirstBloodBonus,
    calculateSpeedBonus, speedThresholds, calculateTeamSizeModifier,
    jsOrDefault, jsRound, rarityMultiplier, difficultyMultiplier,
    categoryMultiplier]
  norm_num

/-- C8 (amended): the flag-verification route awards the raw stored
challenge point value `Number(ch?.points ?? 0)` for a correct flag
when the submitting team has no prior solve of the challenge (0
otherwise), without invoking the scoring engine; the engine's
`totalPoints` is not what is awarded. -/
theorem C8_flagRoute_award_amended (solves : List SolveRow)
    (chPoints : Option ℤ) (userId teamName challengeId : String)
    (hnew : solves.any
      (fun s => s.team_name == teamName && s.challenge_id == challengeId) = false) :
    (flagRouteAward solves chPoints userId teamName challengeId).1 =
      chPoints.getD 0 := by
  simp [flagRouteAward, hnew]

/-- C8 witness: a fresh team's correct solve of a 42-point challenge
is awarded exactly 42 raw points. -/
theorem C8_flagRoute_award_amended_witness :
    (flagRouteAward [] (some 42) "u1" "team1" "chal1").1 = (42 : ℤ) :=
  C8_flagRoute_award_amended [] (some 42) "u1" "team1" "chal1" rfl

/-- C9 counterexample: team `team1` already solved `chal1` through
user `u1`; when a *different* member `u2` of the same team submits
the correct flag again, the award is 0 but a second solve record IS
created — the insert's duplicate key is `(user_id, challenge_id)`,
not `(team_name, challenge_id)` — contradicting "no new record
created". -/
theorem C9_counterexample :
    (flagRouteAward [⟨"u1", "team1", "chal1", 100⟩] (some 100)
      "u2" "team1" "chal1").1 = 0 ∧
    (flagRouteAward [⟨"u1", "team1", "chal1", 100⟩] (some 100)
      "u2" "team1" "chal1").2 =
      [⟨"u1", "team1", "chal1", 100⟩, ⟨"u2", "team1", "chal1", 100⟩] := by
  constructor <;> rfl

/-- C9 (amended): when a team resubmits a correct flag for a
challenge it already solved, the operation awards 0 points and
completes without error; no new solve record is created when the
resubmitting *user* is the one who already solved it, but a different
user of the same team does append a new solve record. -/
theorem C9_duplicate_resubmission_amended (solves : List SolveRow)
    (chPoints : Option ℤ) (userId teamName challengeId : String)
    (hteam : solves.any
      (fun s => s.team_name == teamName && s.challenge_id == challengeId) = true) :
    (flagRouteAward solves chPoints userId teamName challengeId).1 = 0 ∧
    (solves.any (fun s => s.user_id == userId && s.challenge_id == challengeId) = true →
      (flagRouteAward solves chPoints userId teamName challengeId).2 = solves) := by
  constructor
  · simp [flagRouteAward, hteam]
  · intro hdup
    simp [flagRouteAward, hdup]

/-- C9 witness: the same user resubmitting their own solved challenge
gets 0 points and leaves the solves table unchanged. -/
theorem C9_duplicate_resubmission_amended_witness :
    (flagRouteAward [⟨"u1", "team1", "chal1", 100⟩] (some 100)
      "u1" "team1" "chal1").1 = 0 ∧
    (flagRouteAward [⟨"u1", "team1", "chal1", 100⟩] (some 100)
      "u1" "team1" "chal1").2 = [⟨"u1", "team1", "chal1", 100⟩] := by
  have h := C9_duplicate_resubmission_amended
    [⟨"u1", "team1", "chal1", 100⟩] (some 100) "u1" "team1" "chal1" rfl
  exact ⟨h.1, h.2 rfl⟩

theorem calculateFirstBloodBonus_snd (e : Bool) (sb : Option ℤ) :
    (calculateFirstBloodBonus e sb).2 = !e := by
  cases e <;> simp [calculateFirstBloodBonus]

theorem serialized_aux (challengeId : String) (settingsBonus : Option ℤ)
    (teams : List String) (st : RaceState)
    (hrepo : ∀ r ∈ st.repo, r.challenge_id = challengeId)
    (hcount : firstBloodCount st.repo ≤ 1) :
    firstBloodCount ((serializedSchedule teams).foldl
      (fbStep challengeId settingsBonus) st).repo ≤ 1 := by
  induction teams generalizing st with
  | nil => simpa [serializedSchedule] using hcount
  | cons t ts ih =>
    have hser : serializedSchedule (t :: ts) =
        .read t :: .write t :: serializedSchedule ts := by
      simp [serializedSchedule]
    rw [hser]
    simp only [List.foldl_cons]
    have hstep : fbStep challengeId settingsBonus
        (fbStep challengeId settingsBonus st (.read t)) (.write t) =
        ⟨st.repo ++ [⟨t, challengeId,
          !(st.repo.any fun s => s.challenge_id == challengeId)⟩],
         (t, !(st.repo.any fun s => s.challenge_id == challengeId)) ::
           st.candidates⟩ := by
      simp [fbStep, calculateFirstBloodBonus_snd]
    rw [hstep]
    apply ih
    · intro r hr
      rcases List.mem_append.1 hr with hold | hnew
      · exact hrepo r hold
      · rw [List.mem_singleton.1 hnew]
    · by_cases hnil : st.repo = []
      · rw [hnil] at hcount ⊢
        simp [firstBloodCount]
      · obtain ⟨r, rs, hr⟩ := List.exists_cons_of_ne_nil hnil
        have hrc : r.challenge_id = challengeId :=
          hrepo r (hr ▸ List.mem_cons_self r rs)
        have hany : (st.repo.any fun s => s.challenge_id == challengeId) = true := by
          rw [hr]
          simp [hrc]
        rw [hany]
        simpa [firstBloodCount, List.countP_append] using hcount

/-- C10 counterexample: in the interleaving where teams A and B both
perform their advisory first-blood read before either write lands
(read A, read B, write A, write B, all for the same challenge), both
persisted solves are marked `isFirstBlood = true` — the code's
read-before-decide protocol has no write-time re-validation, so two
concurrent submissions in the same instant each receive the
first-blood bonus. -/
theorem C10_counterexample :
    firstBloodCount (runSchedule "chal1" none
      [.read "teamA", .read "teamB", .write "teamA", .write "teamB"]).repo = 2 ∧
    ¬ firstBloodCount (runSchedule "chal1" none
      [.read "teamA", .read "teamB", .write "teamA", .write "teamB"]).repo ≤ 1 := by
  have h : firstBloodCount (runSchedule "chal1" none
      [.read "teamA", .read "teamB", .write "teamA", .write "teamB"]).repo = 2 := by
    simp [firstBloodCount, runSchedule, fbStep, calculateFirstBloodBonus,
      jsOrDefault]
  rw [h]
  norm_num

/-- C10 (amended): the at-most-one-first-blood property holds only
for serialized submissions: for every list of submitting teams whose
read-then-insert pairs execute without interleaving, at most one
persisted solve of the challenge is marked `isFirstBlood = true`.
Under concurrent interleavings the property fails (see the
counterexample): the advisory read is not atomic with the write and
the flag is never re-validated after insert. -/
theorem C10_first_blood_amended (teams : List String)
    (challengeId : String) (settingsBonus : Option ℤ) :
    firstBloodCount (runSchedule challengeId settingsBonus
      (serializedSchedule teams)).repo ≤ 1 := by
  apply serialized_aux
  · intro r hr
    cases hr
  · simp [firstBloodCount]
